import Mathlib

/-!
Shallow embedding of the read-through postings-list cache layer from
`src/dbnode/storage/index/read_through_segment.go`, together with a
spec-modelled postings-list cache front-end (the cache implementation
itself is not part of the sources; its observable behaviour is taken
from the specification of the cache front-end).

Go byte slices (`[]byte`) are modelled as `String` (Go converts them to
strings before keying the cache, and the conversion is injective).
Errors are modelled as `String` values inside `Except`.  Stateful code
is modelled by explicit state passing; the `Close` path additionally
produces an event trace so that the order of the purge and the
underlying close is observable.
-/

abbrev Err := String

/-- A postings list, modelled as the list of document ids it holds. -/
abbrev PostingsList := List Nat

/-- The pattern kinds distinguished by the cache: field presence, exact
term, compiled regular expression and compound search. -/
inductive PatternType where
  | field
  | term
  | regexp
  | search
deriving DecidableEq, Repr

/-- A compiled regular expression: the original user-supplied pattern
text plus the canonical FST serialisation of the compiled form (the
string returned by the `FSTSyntax.String()` call in the source). -/
structure CompiledRegex where
  pattern : String
  fstStr : String
deriving DecidableEq, Repr

/-- A compound search query: `str` is its canonical string form (the
value of `query.String()` in the source); `ident` distinguishes query
values that happen to share a canonical string. -/
structure Query where
  ident : Nat
  str : String
deriving DecidableEq, Repr

/-- A searcher, abstracted to the result it computes when run against a
reader. -/
structure Searcher where
  searchResult : Except Err PostingsList

/-- Modelled from the spec: the cache key is the tuple
`(segment-id, kind, field-bytes-as-string, pattern-string)`. -/
structure CacheKey where
  segment : Nat
  patternType : PatternType
  field : String
  pattern : String
deriving DecidableEq, Repr

/-- Modelled from the spec: the cache front-end, whose implementation is
not among the sources, is modelled as an association list from cache
keys to postings lists (get returns the stored postings or a miss, put
stores under the key replacing any previous entry, purge removes every
entry of a segment id). -/
abbrev PLCache := List (CacheKey × PostingsList)

/-- Modelled from the spec: `get` returns the stored postings list or a
miss; it never errors and never inserts. -/
def PLCache.lookup : PLCache → CacheKey → Option PostingsList
  | [], _ => none
  | e :: rest, k => if e.1 = k then some e.2 else PLCache.lookup rest k

/-- Modelled from the spec: `put` inserts; if the key existed, the new
value replaces the old one. -/
def PLCache.put (c : PLCache) (k : CacheKey) (pl : PostingsList) : PLCache :=
  (k, pl) :: c.filter (fun e => decide (e.1 ≠ k))

/-- Modelled from the spec: `purge_segment` removes every entry keyed by
the given segment id. -/
def PLCache.PurgeSegment (c : PLCache) (uuid : Nat) : PLCache :=
  c.filter (fun e => decide (e.1.segment ≠ uuid))

def PLCache.GetTerm (c : PLCache) (uuid : Nat) (field pattern : String) :
    Option PostingsList :=
  c.lookup ⟨uuid, PatternType.term, field, pattern⟩

def PLCache.PutTerm (c : PLCache) (uuid : Nat) (field pattern : String)
    (pl : PostingsList) : PLCache :=
  c.put ⟨uuid, PatternType.term, field, pattern⟩ pl

def PLCache.GetRegexp (c : PLCache) (uuid : Nat) (field pattern : String) :
    Option PostingsList :=
  c.lookup ⟨uuid, PatternType.regexp, field, pattern⟩

def PLCache.PutRegexp (c : PLCache) (uuid : Nat) (field pattern : String)
    (pl : PostingsList) : PLCache :=
  c.put ⟨uuid, PatternType.regexp, field, pattern⟩ pl

def PLCache.GetField (c : PLCache) (uuid : Nat) (field : String) :
    Option PostingsList :=
  c.lookup ⟨uuid, PatternType.field, field, ""⟩

def PLCache.PutField (c : PLCache) (uuid : Nat) (field : String)
    (pl : PostingsList) : PLCache :=
  c.put ⟨uuid, PatternType.field, field, ""⟩ pl

def PLCache.GetSearch (c : PLCache) (uuid : Nat) (queryStr : String) :
    Option PostingsList :=
  c.lookup ⟨uuid, PatternType.search, "", queryStr⟩

def PLCache.PutSearch (c : PLCache) (uuid : Nat) (queryStr : String)
    (_query : Query) (pl : PostingsList) : PLCache :=
  c.put ⟨uuid, PatternType.search, "", queryStr⟩ pl

/-- Modelled from the spec: `iter_patterns` visits the entries of one
segment id matching the pattern-type filter, without mutating the
cache. -/
def PLCache.CachedPatterns (c : PLCache) (uuid : Nat) (pt : PatternType) :
    List (CacheKey × PostingsList) :=
  c.filter (fun e => decide (e.1.segment = uuid ∧ e.1.patternType = pt))

/-- The pair of caches carried by a read-through segment
(`ReadThroughSegmentCaches` in the source); `none` models a nil cache
handle. -/
structure ReadThroughSegmentCaches where
  SegmentPostingsListCache : Option PLCache
  SearchPostingsListCache : Option PLCache
deriving DecidableEq, Repr

/-- `ReadThroughSegmentOptions` from the source: per-kind enable flags. -/
structure ReadThroughSegmentOptions where
  CacheRegexp : Bool
  CacheTerms : Bool
  CacheSearches : Bool
deriving DecidableEq, Repr

/-- The underlying segment reader (opaque capability): each query
primitive is a function from its arguments to a result.  Iterator and
document results are modelled as opaque numeric handles. -/
structure UnderlyingReader where
  matchTerm : String → String → Except Err PostingsList
  matchRegexp : String → CompiledRegex → Except Err PostingsList
  matchField : String → Except Err PostingsList
  matchAll : Except Err PostingsList
  allDocs : Except Err Nat
  metadata : Nat → Except Err Nat
  metadataIterator : PostingsList → Except Err Nat
  doc : Nat → Except Err Nat
  docs : PostingsList → Except Err Nat
  fields : Except Err Nat
  fieldsPostingsList : Except Err Nat
  containsField : String → Except Err Bool
  terms : String → Except Err Nat
  closeResult : Except Err Unit

/-- `readThroughSegmentReader` from the source: wraps an underlying
reader with the segment id, the caches and the options. -/
structure readThroughSegmentReader where
  reader : UnderlyingReader
  opts : ReadThroughSegmentOptions
  uuid : Nat

def newReadThroughSegmentReader (reader : UnderlyingReader) (uuid : Nat)
    (opts : ReadThroughSegmentOptions) : readThroughSegmentReader :=
  ⟨reader, opts, uuid⟩

/-- `readThroughSegmentReader.MatchTerm`: consult the segment cache when
present and terms caching is enabled; on hit return the cached postings;
on miss query the underlying reader and cache only a successful result. -/
def readThroughSegmentReader.MatchTerm (s : readThroughSegmentReader)
    (caches : ReadThroughSegmentCaches) (field term : String) :
    Except Err PostingsList × ReadThroughSegmentCaches :=
  match caches.SegmentPostingsListCache with
  | none => (s.reader.matchTerm field term, caches)
  | some cache =>
    if !s.opts.CacheTerms then (s.reader.matchTerm field term, caches)
    else
      let fieldStr := field
      let patternStr := term
      match cache.GetTerm s.uuid fieldStr patternStr with
      | some pl => (Except.ok pl, caches)
      | none =>
        match s.reader.matchTerm field term with
        | Except.ok pl =>
          let cache1 := cache.PutTerm s.uuid fieldStr patternStr pl
          (Except.ok pl, { caches with SegmentPostingsListCache := some cache1 })
        | Except.error e => (Except.error e, caches)

/-- `readThroughSegmentReader.MatchRegexp`: like `MatchTerm`, keyed by
the canonical FST serialisation of the compiled regex. -/
def readThroughSegmentReader.MatchRegexp (s : readThroughSegmentReader)
    (caches : ReadThroughSegmentCaches) (field : String) (c : CompiledRegex) :
    Except Err PostingsList × ReadThroughSegmentCaches :=
  match caches.SegmentPostingsListCache with
  | none => (s.reader.matchRegexp field c, caches)
  | some cache =>
    if !s.opts.CacheRegexp then (s.reader.matchRegexp field c, caches)
    else
      let fieldStr := field
      let patternStr := c.fstStr
      match cache.GetRegexp s.uuid fieldStr patternStr with
      | some pl => (Except.ok pl, caches)
      | none =>
        match s.reader.matchRegexp field c with
        | Except.ok pl =>
          let cache1 := cache.PutRegexp s.uuid fieldStr patternStr pl
          (Except.ok pl, { caches with SegmentPostingsListCache := some cache1 })
        | Except.error e => (Except.error e, caches)

/-- `readThroughSegmentReader.MatchField`: like `MatchTerm`, governed by
the terms flag, keyed by the field alone. -/
def readThroughSegmentReader.MatchField (s : readThroughSegmentReader)
    (caches : ReadThroughSegmentCaches) (field : String) :
    Except Err PostingsList × ReadThroughSegmentCaches :=
  match caches.SegmentPostingsListCache with
  | none => (s.reader.matchField field, caches)
  | some cache =>
    if !s.opts.CacheTerms then (s.reader.matchField field, caches)
    else
      let fieldStr := field
      match cache.GetField s.uuid fieldStr with
      | some pl => (Except.ok pl, caches)
      | none =>
        match s.reader.matchField field with
        | Except.ok pl =>
          let cache1 := cache.PutField s.uuid fieldStr pl
          (Except.ok pl, { caches with SegmentPostingsListCache := some cache1 })
        | Except.error e => (Except.error e, caches)

/-- `readThroughSegmentReader.Search`: consult the search cache when
present and search caching is enabled, keyed by the query's canonical
string form; on miss run the searcher and cache only a successful
result. -/
def readThroughSegmentReader.Search (s : readThroughSegmentReader)
    (caches : ReadThroughSegmentCaches) (query : Query)
    (searcher : Searcher) :
    Except Err PostingsList × ReadThroughSegmentCaches :=
  match caches.SearchPostingsListCache with
  | none => (searcher.searchResult, caches)
  | some cache =>
    if !s.opts.CacheSearches then (searcher.searchResult, caches)
    else
      let queryStr := query.str
      match cache.GetSearch s.uuid queryStr with
      | some pl => (Except.ok pl, caches)
      | none =>
        match searcher.searchResult with
        | Except.error e => (Except.error e, caches)
        | Except.ok pl =>
          let cache1 := cache.PutSearch s.uuid queryStr query pl
          (Except.ok pl, { caches with SearchPostingsListCache := some cache1 })

/-- `MatchAll` is a pass-through call. -/
def readThroughSegmentReader.MatchAll (s : readThroughSegmentReader)
    (caches : ReadThroughSegmentCaches) :
    Except Err PostingsList × ReadThroughSegmentCaches :=
  (s.reader.matchAll, caches)

/-- `AllDocs` is a pass-through call. -/
def readThroughSegmentReader.AllDocs (s : readThroughSegmentReader)
    (caches : ReadThroughSegmentCaches) :
    Except Err Nat × ReadThroughSegmentCaches :=
  (s.reader.allDocs, caches)

/-- `Metadata` is a pass-through call. -/
def readThroughSegmentReader.Metadata (s : readThroughSegmentReader)
    (caches : ReadThroughSegmentCaches) (id : Nat) :
    Except Err Nat × ReadThroughSegmentCaches :=
  (s.reader.metadata id, caches)

/-- `MetadataIterator` is a pass-through call. -/
def readThroughSegmentReader.MetadataIterator (s : readThroughSegmentReader)
    (caches : ReadThroughSegmentCaches) (pl : PostingsList) :
    Except Err Nat × ReadThroughSegmentCaches :=
  (s.reader.metadataIterator pl, caches)

/-- `Doc` is a pass-through call. -/
def readThroughSegmentReader.Doc (s : readThroughSegmentReader)
    (caches : ReadThroughSegmentCaches) (id : Nat) :
    Except Err Nat × ReadThroughSegmentCaches :=
  (s.reader.doc id, caches)

/-- `Docs` is a pass-through call. -/
def readThroughSegmentReader.Docs (s : readThroughSegmentReader)
    (caches : ReadThroughSegmentCaches) (pl : PostingsList) :
    Except Err Nat × ReadThroughSegmentCaches :=
  (s.reader.docs pl, caches)

/-- `Fields` is a pass-through call. -/
def readThroughSegmentReader.Fields (s : readThroughSegmentReader)
    (caches : ReadThroughSegmentCaches) :
    Except Err Nat × ReadThroughSegmentCaches :=
  (s.reader.fields, caches)

/-- `FieldsPostingsList` is a pass-through call. -/
def readThroughSegmentReader.FieldsPostingsList (s : readThroughSegmentReader)
    (caches : ReadThroughSegmentCaches) :
    Except Err Nat × ReadThroughSegmentCaches :=
  (s.reader.fieldsPostingsList, caches)

/-- `ContainsField` is a pass-through call. -/
def readThroughSegmentReader.ContainsField (s : readThroughSegmentReader)
    (caches : ReadThroughSegmentCaches) (field : String) :
    Except Err Bool × ReadThroughSegmentCaches :=
  (s.reader.containsField field, caches)

/-- `Terms` is a pass-through call. -/
def readThroughSegmentReader.Terms (s : readThroughSegmentReader)
    (caches : ReadThroughSegmentCaches) (field : String) :
    Except Err Nat × ReadThroughSegmentCaches :=
  (s.reader.terms field, caches)

def errCantGetReaderFromClosedSegment : Err :=
  "cant get reader from closed segment"

def errCantCloseClosedSegment : Err :=
  "cant close closed segment"

/-- The underlying immutable segment (opaque capability): the result of
asking it for a reader, and the result of closing it. -/
structure UnderlyingSegment where
  readerResult : Except Err UnderlyingReader
  closeResult : Except Err Unit

/-- The immutable part of a `ReadThroughSegment`: the wrapped segment,
the freshly generated segment id and the per-kind options. -/
structure ReadThroughSegment where
  segment : UnderlyingSegment
  uuid : Nat
  opts : ReadThroughSegmentOptions

/-- The mutable part of a `ReadThroughSegment`: the closed flag and the
current contents of the two caches (shared state in the source, passed
explicitly here). -/
structure ReadThroughSegmentState where
  closed : Bool
  caches : ReadThroughSegmentCaches
deriving DecidableEq, Repr

/-- Observable steps of `ReadThroughSegment.Close`, in program order. -/
inductive CloseEvent where
  | markClosed
  | purgeSegmentCache
  | purgeSearchCache
  | closeUnderlying
deriving DecidableEq, Repr

def NewReadThroughSegment (seg : UnderlyingSegment) (uuid : Nat)
    (opts : ReadThroughSegmentOptions) : ReadThroughSegment :=
  ⟨seg, uuid, opts⟩

/-- `ReadThroughSegment.Reader`: fails on a closed segment, otherwise
obtains an underlying reader and wraps it. -/
def ReadThroughSegment.Reader (r : ReadThroughSegment)
    (st : ReadThroughSegmentState) : Except Err readThroughSegmentReader :=
  if st.closed then Except.error errCantGetReaderFromClosedSegment
  else
    match r.segment.readerResult with
    | Except.error e => Except.error e
    | Except.ok reader =>
      Except.ok (newReadThroughSegmentReader reader r.uuid r.opts)

/-- `ReadThroughSegment.Close`: fails if already closed; otherwise marks
the segment closed, purges each non-nil cache of this segment's entries,
and then closes the underlying segment.  The returned event list records
the order of these steps. -/
def ReadThroughSegment.Close (r : ReadThroughSegment)
    (st : ReadThroughSegmentState) :
    Except Err Unit × ReadThroughSegmentState × List CloseEvent :=
  if st.closed then (Except.error errCantCloseClosedSegment, st, [])
  else
    let st1 : ReadThroughSegmentState := { st with closed := true }
    let step2 : ReadThroughSegmentState × List CloseEvent :=
      match st1.caches.SegmentPostingsListCache with
      | some cache =>
        let cache1 := cache.PurgeSegment r.uuid
        ({ st1 with caches := { st1.caches with SegmentPostingsListCache := some cache1 } },
          [CloseEvent.purgeSegmentCache])
      | none => (st1, [])
    let st2 := step2.1
    let step3 : ReadThroughSegmentState × List CloseEvent :=
      match st2.caches.SearchPostingsListCache with
      | some cache =>
        let cache1 := cache.PurgeSegment r.uuid
        ({ st2 with caches := { st2.caches with SearchPostingsListCache := some cache1 } },
          [CloseEvent.purgeSearchCache])
      | none => (st2, [])
    let st3 := step3.1
    (r.segment.closeResult, st3,
      CloseEvent.markClosed :: (step2.2 ++ step3.2 ++ [CloseEvent.closeUnderlying]))

/-- `ReadThroughSegment.PutCachedSearchPattern`: a silent no-op when the
segment is closed, the search cache handle is nil or search caching is
disabled; otherwise inserts the entry under the segment id and the query
string. -/
def ReadThroughSegment.PutCachedSearchPattern (r : ReadThroughSegment)
    (st : ReadThroughSegmentState) (queryStr : String) (query : Query)
    (pl : PostingsList) : ReadThroughSegmentState :=
  if st.closed then st
  else
    match st.caches.SearchPostingsListCache with
    | none => st
    | some cache =>
      if !r.opts.CacheSearches then st
      else
        let cache1 := cache.PutSearch r.uuid queryStr query pl
        { st with caches := { st.caches with SearchPostingsListCache := some cache1 } }

/-- `CachedSearchPatternsResult` from the source. -/
structure CachedSearchPatternsResult where
  CacheSearchesDisabled : Bool
  CachedPatternsResult : List (CacheKey × PostingsList)
deriving DecidableEq, Repr

/-- `ReadThroughSegment.CachedSearchPatterns`: reports searches-disabled
when the search cache handle is nil or search caching is disabled;
otherwise visits the cached search patterns for this segment id. -/
def ReadThroughSegment.CachedSearchPatterns (r : ReadThroughSegment)
    (st : ReadThroughSegmentState) : CachedSearchPatternsResult :=
  match st.caches.SearchPostingsListCache with
  | none => ⟨true, []⟩
  | some cache =>
    if !r.opts.CacheSearches then ⟨true, []⟩
    else ⟨false, cache.CachedPatterns r.uuid PatternType.search⟩

/-- A concrete underlying reader used to instantiate theorems with
hypotheses at explicit inputs. -/
def testReader : UnderlyingReader where
  matchTerm := fun _ _ => Except.ok [1, 2]
  matchRegexp := fun _ _ => Except.ok [2, 3]
  matchField := fun _ => Except.ok [1]
  matchAll := Except.ok [1, 2, 3]
  allDocs := Except.ok 0
  metadata := fun n => Except.ok n
  metadataIterator := fun _ => Except.ok 1
  doc := fun n => Except.ok n
  docs := fun _ => Except.ok 2
  fields := Except.ok 3
  fieldsPostingsList := Except.ok 4
  containsField := fun _ => Except.ok true
  terms := fun _ => Except.ok 5
  closeResult := Except.ok ()

/-- A concrete underlying reader whose every query fails. -/
def errReader : UnderlyingReader where
  matchTerm := fun _ _ => Except.error "term boom"
  matchRegexp := fun _ _ => Except.error "regexp boom"
  matchField := fun _ => Except.error "field boom"
  matchAll := Except.error "boom"
  allDocs := Except.error "boom"
  metadata := fun _ => Except.error "boom"
  metadataIterator := fun _ => Except.error "boom"
  doc := fun _ => Except.error "boom"
  docs := fun _ => Except.error "boom"
  fields := Except.error "boom"
  fieldsPostingsList := Except.error "boom"
  containsField := fun _ => Except.error "boom"
  terms := fun _ => Except.error "boom"
  closeResult := Except.ok ()

/-- A concrete underlying segment whose close fails. -/
def failCloseSegment : UnderlyingSegment where
  readerResult := Except.ok testReader
  closeResult := Except.error "close boom"

/-- A concrete cache state holding one entry of each kind for segment 7
and one term entry for segment 8. -/
def testCache : PLCache :=
  [(⟨7, PatternType.term, "color", "red"⟩, [1, 2]),
   (⟨7, PatternType.regexp, "shape", "squa.*"⟩, [2, 3]),
   (⟨7, PatternType.field, "color", ""⟩, [1, 2, 3]),
   (⟨7, PatternType.search, "", "q1"⟩, [4]),
   (⟨8, PatternType.term, "color", "red"⟩, [9])]

/-- A concrete underlying segment that opens readers and closes
successfully. -/
def testSegment : UnderlyingSegment where
  readerResult := Except.ok testReader
  closeResult := Except.ok ()

theorem PLCache.lookup_put_self (c : PLCache) (k : CacheKey)
    (pl : PostingsList) : (c.put k pl).lookup k = some pl := by
  simp [PLCache.put, PLCache.lookup]

theorem PLCache.mem_PurgeSegment {e : CacheKey × PostingsList} {c : PLCache}
    {u : Nat} (h : e ∈ c.PurgeSegment u) : e.1.segment ≠ u := by
  have h2 := (List.mem_filter.mp h).2
  simpa using h2

/-- C4: `ReadThroughSegment.Reader` on a closed segment fails with the
SegmentClosed error (and returns no reader); `ReadThroughSegment.Close`
on an already-closed segment fails with the AlreadyClosed error, leaves
the state unchanged (no purge) and emits no events (no second close of
the underlying segment). -/
theorem C4_closed_segment_operations (r : ReadThroughSegment)
    (caches : ReadThroughSegmentCaches) :
    ReadThroughSegment.Reader r ⟨true, caches⟩
        = Except.error errCantGetReaderFromClosedSegment ∧
    ReadThroughSegment.Close r ⟨true, caches⟩
        = (Except.error errCantCloseClosedSegment,
            (⟨true, caches⟩ : ReadThroughSegmentState), []) := by
  constructor
  · simp [ReadThroughSegment.Reader]
  · simp [ReadThroughSegment.Close]

/-- C5: with a cache kind disabled in the options, the corresponding
reader operation neither consults nor populates any cache and delegates
to the underlying reader (or searcher): `CacheRegexp` disabled bypasses
`MatchRegexp`, `CacheSearches` disabled bypasses `Search`, and
`CacheTerms` disabled bypasses both `MatchTerm` and `MatchField`, for
every input and every cache state. -/
theorem C5_disabled_kinds_bypass (rd : UnderlyingReader) (u : Nat)
    (b1 b2 : Bool) (caches : ReadThroughSegmentCaches) (f t : String)
    (c : CompiledRegex) (q : Query) (searcher : Searcher) :
    (newReadThroughSegmentReader rd u ⟨false, b1, b2⟩).MatchRegexp caches f c
        = (rd.matchRegexp f c, caches) ∧
    (newReadThroughSegmentReader rd u ⟨b1, b2, false⟩).Search caches q searcher
        = (searcher.searchResult, caches) ∧
    (newReadThroughSegmentReader rd u ⟨b1, false, b2⟩).MatchTerm caches f t
        = (rd.matchTerm f t, caches) ∧
    (newReadThroughSegmentReader rd u ⟨b1, false, b2⟩).MatchField caches f
        = (rd.matchField f, caches) := by
  obtain ⟨segc, searchc⟩ := caches
  refine ⟨?_, ?_, ?_, ?_⟩
  · cases segc <;>
      simp [readThroughSegmentReader.MatchRegexp, newReadThroughSegmentReader]
  · cases searchc <;>
      simp [readThroughSegmentReader.Search, newReadThroughSegmentReader]
  · cases segc <;>
      simp [readThroughSegmentReader.MatchTerm, newReadThroughSegmentReader]
  · cases segc <;>
      simp [readThroughSegmentReader.MatchField, newReadThroughSegmentReader]

/-- C7: `PutCachedSearchPattern` is a silent no-op when the segment is
closed, when the search cache handle is nil, or when search caching is
disabled; on an open segment with an enabled non-nil search cache it
inserts the entry under the segment's id and the query string, and the
inserted entry is retrievable by `GetSearch`. -/
theorem C7_put_cached_search_pattern (seg : UnderlyingSegment) (u : Nat)
    (b1 b2 b3 b4 : Bool) (cache : PLCache) (segc : Option PLCache)
    (qs : String) (q : Query) (pl : PostingsList) :
    (∀ caches : ReadThroughSegmentCaches,
      (NewReadThroughSegment seg u ⟨b1, b2, b3⟩).PutCachedSearchPattern
          ⟨true, caches⟩ qs q pl = ⟨true, caches⟩) ∧
    ((NewReadThroughSegment seg u ⟨b1, b2, b3⟩).PutCachedSearchPattern
        ⟨b4, ⟨segc, none⟩⟩ qs q pl = ⟨b4, ⟨segc, none⟩⟩) ∧
    (∀ st : ReadThroughSegmentState,
      (NewReadThroughSegment seg u ⟨b1, b2, false⟩).PutCachedSearchPattern
          st qs q pl = st) ∧
    ((NewReadThroughSegment seg u ⟨b1, b2, true⟩).PutCachedSearchPattern
        ⟨false, ⟨segc, some cache⟩⟩ qs q pl
      = ⟨false, ⟨segc, some (cache.PutSearch u qs q pl)⟩⟩) ∧
    PLCache.GetSearch (cache.PutSearch u qs q pl) u qs = some pl := by
  refine ⟨?_, ?_, ?_, ?_, ?_⟩
  · intro caches
    simp [ReadThroughSegment.PutCachedSearchPattern]
  · cases b4 <;>
      simp [ReadThroughSegment.PutCachedSearchPattern, NewReadThroughSegment]
  · intro st
    obtain ⟨cl, ⟨sp, sr⟩⟩ := st
    cases cl <;> cases sr <;>
      simp [ReadThroughSegment.PutCachedSearchPattern, NewReadThroughSegment]
  · simp [ReadThroughSegment.PutCachedSearchPattern, NewReadThroughSegment]
  · simp [PLCache.GetSearch, PLCache.PutSearch, PLCache.lookup_put_self]

/-- C8: `MatchAll`, `AllDocs`, `Docs`, `Metadata`, `MetadataIterator`,
`Fields`, `FieldsPostingsList`, `Terms` and `ContainsField` on the
read-through reader are pure pass-throughs: each returns exactly the
underlying reader's result for the same call and leaves every cache
untouched. -/
theorem C8_pass_through_operations (rd : UnderlyingReader) (u : Nat)
    (opts : ReadThroughSegmentOptions) (caches : ReadThroughSegmentCaches)
    (id : Nat) (pl : PostingsList) (f : String) :
    (newReadThroughSegmentReader rd u opts).MatchAll caches
        = (rd.matchAll, caches) ∧
    (newReadThroughSegmentReader rd u opts).AllDocs caches
        = (rd.allDocs, caches) ∧
    (newReadThroughSegmentReader rd u opts).Docs caches pl
        = (rd.docs pl, caches) ∧
    (newReadThroughSegmentReader rd u opts).Metadata caches id
        = (rd.metadata id, caches) ∧
    (newReadThroughSegmentReader rd u opts).MetadataIterator caches pl
        = (rd.metadataIterator pl, caches) ∧
    (newReadThroughSegmentReader rd u opts).Fields caches
        = (rd.fields, caches) ∧
    (newReadThroughSegmentReader rd u opts).FieldsPostingsList caches
        = (rd.fieldsPostingsList, caches) ∧
    (newReadThroughSegmentReader rd u opts).Terms caches f
        = (rd.terms f, caches) ∧
    (newReadThroughSegmentReader rd u opts).ContainsField caches f
        = (rd.containsField f, caches) := by
  refine ⟨rfl, rfl, rfl, rfl, rfl, rfl, rfl, rfl, rfl⟩

/-- C10: a nil cache handle behaves like a disabled kind everywhere at
the public interface: with a nil segment cache `MatchTerm`,
`MatchRegexp` and `MatchField` delegate to the underlying reader and
leave the state unchanged; with a nil search cache `Search` delegates to
the searcher; `Close` skips the purge of each nil cache but still closes
the underlying segment; and `CachedSearchPatterns` reports
searches-disabled when the search cache is nil. -/
theorem C10_nil_cache_safety (rd : UnderlyingReader) (seg : UnderlyingSegment)
    (u : Nat) (opts : ReadThroughSegmentOptions) (sc segc : Option PLCache)
    (cache : PLCache) (b : Bool) (f t : String) (c : CompiledRegex)
    (q : Query) (searcher : Searcher) :
    (newReadThroughSegmentReader rd u opts).MatchTerm ⟨none, sc⟩ f t
        = (rd.matchTerm f t, ⟨none, sc⟩) ∧
    (newReadThroughSegmentReader rd u opts).MatchRegexp ⟨none, sc⟩ f c
        = (rd.matchRegexp f c, ⟨none, sc⟩) ∧
    (newReadThroughSegmentReader rd u opts).MatchField ⟨none, sc⟩ f
        = (rd.matchField f, ⟨none, sc⟩) ∧
    (newReadThroughSegmentReader rd u opts).Search ⟨segc, none⟩ q searcher
        = (searcher.searchResult, ⟨segc, none⟩) ∧
    (NewReadThroughSegment seg u opts).Close ⟨false, ⟨none, none⟩⟩
        = (seg.closeResult, (⟨true, ⟨none, none⟩⟩ : ReadThroughSegmentState),
            [CloseEvent.markClosed, CloseEvent.closeUnderlying]) ∧
    (NewReadThroughSegment seg u opts).Close ⟨false, ⟨some cache, none⟩⟩
        = (seg.closeResult,
            (⟨true, ⟨some (cache.PurgeSegment u), none⟩⟩ : ReadThroughSegmentState),
            [CloseEvent.markClosed, CloseEvent.purgeSegmentCache,
              CloseEvent.closeUnderlying]) ∧
    (NewReadThroughSegment seg u opts).CachedSearchPatterns ⟨b, ⟨segc, none⟩⟩
        = ⟨true, []⟩ := by
  refine ⟨rfl, rfl, rfl, rfl, ?_, ?_, rfl⟩
  · simp [ReadThroughSegment.Close, NewReadThroughSegment]
  · simp [ReadThroughSegment.Close, NewReadThroughSegment]

theorem PLCache.GetTerm_PutTerm_self (c : PLCache) (u : Nat) (f t : String)
    (pl : PostingsList) : (c.PutTerm u f t pl).GetTerm u f t = some pl := by
  simp [PLCache.GetTerm, PLCache.PutTerm, PLCache.lookup_put_self]

theorem PLCache.GetRegexp_PutRegexp_self (c : PLCache) (u : Nat)
    (f p : String) (pl : PostingsList) :
    (c.PutRegexp u f p pl).GetRegexp u f p = some pl := by
  simp [PLCache.GetRegexp, PLCache.PutRegexp, PLCache.lookup_put_self]

theorem PLCache.GetField_PutField_self (c : PLCache) (u : Nat) (f : String)
    (pl : PostingsList) : (c.PutField u f pl).GetField u f = some pl := by
  simp [PLCache.GetField, PLCache.PutField, PLCache.lookup_put_self]

theorem PLCache.GetSearch_PutSearch_self (c : PLCache) (u : Nat)
    (qs : String) (q : Query) (pl : PostingsList) :
    (c.PutSearch u qs q pl).GetSearch u qs = some pl := by
  simp [PLCache.GetSearch, PLCache.PutSearch, PLCache.lookup_put_self]

/-- C1: for every field/pattern, `MatchTerm`, `MatchRegexp` and
`MatchField` on a read-through reader return exactly what the underlying
reader returns for the same arguments: on a cold cache (no entry for the
key), on the warm cache produced by that first call, and when the
corresponding cache kind is disabled. -/
theorem C1_read_through_correctness (rd : UnderlyingReader) (u : Nat)
    (b1 b2 : Bool) (cache : PLCache) (sc : Option PLCache)
    (caches0 : ReadThroughSegmentCaches) (f t : String) (c : CompiledRegex) :
    (PLCache.GetTerm cache u f t = none →
      ((newReadThroughSegmentReader rd u ⟨b1, true, b2⟩).MatchTerm
          ⟨some cache, sc⟩ f t).1 = rd.matchTerm f t ∧
      ((newReadThroughSegmentReader rd u ⟨b1, true, b2⟩).MatchTerm
          ((newReadThroughSegmentReader rd u ⟨b1, true, b2⟩).MatchTerm
            ⟨some cache, sc⟩ f t).2 f t).1 = rd.matchTerm f t) ∧
    (PLCache.GetRegexp cache u f c.fstStr = none →
      ((newReadThroughSegmentReader rd u ⟨true, b1, b2⟩).MatchRegexp
          ⟨some cache, sc⟩ f c).1 = rd.matchRegexp f c ∧
      ((newReadThroughSegmentReader rd u ⟨true, b1, b2⟩).MatchRegexp
          ((newReadThroughSegmentReader rd u ⟨true, b1, b2⟩).MatchRegexp
            ⟨some cache, sc⟩ f c).2 f c).1 = rd.matchRegexp f c) ∧
    (PLCache.GetField cache u f = none →
      ((newReadThroughSegmentReader rd u ⟨b1, true, b2⟩).MatchField
          ⟨some cache, sc⟩ f).1 = rd.matchField f ∧
      ((newReadThroughSegmentReader rd u ⟨b1, true, b2⟩).MatchField
          ((newReadThroughSegmentReader rd u ⟨b1, true, b2⟩).MatchField
            ⟨some cache, sc⟩ f).2 f).1 = rd.matchField f) ∧
    ((newReadThroughSegmentReader rd u ⟨b1, false, b2⟩).MatchTerm
        caches0 f t).1 = rd.matchTerm f t ∧
    ((newReadThroughSegmentReader rd u ⟨false, b1, b2⟩).MatchRegexp
        caches0 f c).1 = rd.matchRegexp f c ∧
    ((newReadThroughSegmentReader rd u ⟨b1, false, b2⟩).MatchField
        caches0 f).1 = rd.matchField f := by
  refine ⟨?_, ?_, ?_, ?_, ?_, ?_⟩
  · intro hcold
    cases hm : rd.matchTerm f t <;>
      simp [readThroughSegmentReader.MatchTerm, newReadThroughSegmentReader,
        hcold, hm, PLCache.GetTerm_PutTerm_self]
  · intro hcold
    cases hm : rd.matchRegexp f c <;>
      simp [readThroughSegmentReader.MatchRegexp, newReadThroughSegmentReader,
        hcold, hm, PLCache.GetRegexp_PutRegexp_self]
  · intro hcold
    cases hm : rd.matchField f <;>
      simp [readThroughSegmentReader.MatchField, newReadThroughSegmentReader,
        hcold, hm, PLCache.GetField_PutField_self]
  · obtain ⟨segc, searchc⟩ := caches0
    cases segc <;>
      simp [readThroughSegmentReader.MatchTerm, newReadThroughSegmentReader]
  · obtain ⟨segc, searchc⟩ := caches0
    cases segc <;>
      simp [readThroughSegmentReader.MatchRegexp, newReadThroughSegmentReader]
  · obtain ⟨segc, searchc⟩ := caches0
    cases segc <;>
      simp [readThroughSegmentReader.MatchField, newReadThroughSegmentReader]

theorem C1_read_through_correctness_witness :
    PLCache.GetTerm [] 7 "color" "red" = none ∧
    ((newReadThroughSegmentReader testReader 7 ⟨true, true, true⟩).MatchTerm
        ⟨some [], none⟩ "color" "red").1
      = testReader.matchTerm "color" "red" :=
  ⟨rfl,
    ((C1_read_through_correctness testReader 7 true true [] none ⟨none, none⟩
        "color" "red" ⟨"squa.*", "squa.*"⟩).1 rfl).1⟩

/-- C2: closing a not-yet-closed read-through segment marks it closed,
purges every entry keyed by this segment's id from each non-nil cache,
and only after the purges closes the underlying segment (the
`closeUnderlying` event is last, after every purge event); no cache
entry for this segment's id survives in the resulting state. -/
theorem C2_close_purges_then_closes (r : ReadThroughSegment)
    (sp sr : Option PLCache) :
    (r.Close ⟨false, ⟨sp, sr⟩⟩).2.1.closed = true ∧
    (∀ cache,
      (r.Close ⟨false, ⟨sp, sr⟩⟩).2.1.caches.SegmentPostingsListCache
          = some cache →
      ∀ e ∈ cache, e.1.segment ≠ r.uuid) ∧
    (∀ cache,
      (r.Close ⟨false, ⟨sp, sr⟩⟩).2.1.caches.SearchPostingsListCache
          = some cache →
      ∀ e ∈ cache, e.1.segment ≠ r.uuid) ∧
    (∃ pre : List CloseEvent,
      (r.Close ⟨false, ⟨sp, sr⟩⟩).2.2
          = CloseEvent.markClosed :: (pre ++ [CloseEvent.closeUnderlying]) ∧
      CloseEvent.closeUnderlying ∉ pre ∧
      (sp.isSome → CloseEvent.purgeSegmentCache ∈ pre) ∧
      (sr.isSome → CloseEvent.purgeSearchCache ∈ pre)) ∧
    (r.Close ⟨false, ⟨sp, sr⟩⟩).1 = r.segment.closeResult := by
  cases sp with
  | none =>
    cases sr with
    | none =>
      refine ⟨rfl, ?_, ?_, ⟨[], rfl, ?_, ?_, ?_⟩, rfl⟩
      · intro cache h
        simp [ReadThroughSegment.Close] at h
      · intro cache h
        simp [ReadThroughSegment.Close] at h
      · simp
      · simp
      · simp
    | some c2 =>
      refine ⟨rfl, ?_, ?_, ⟨[CloseEvent.purgeSearchCache], rfl, ?_, ?_, ?_⟩, rfl⟩
      · intro cache h
        simp [ReadThroughSegment.Close] at h
      · intro cache h e he
        simp [ReadThroughSegment.Close] at h
        subst h
        exact PLCache.mem_PurgeSegment he
      · simp
      · simp
      · simp
  | some c1 =>
    cases sr with
    | none =>
      refine ⟨rfl, ?_, ?_, ⟨[CloseEvent.purgeSegmentCache], rfl, ?_, ?_, ?_⟩, rfl⟩
      · intro cache h e he
        simp [ReadThroughSegment.Close] at h
        subst h
        exact PLCache.mem_PurgeSegment he
      · intro cache h
        simp [ReadThroughSegment.Close] at h
      · simp
      · simp
      · simp
    | some c2 =>
      refine ⟨rfl, ?_, ?_,
        ⟨[CloseEvent.purgeSegmentCache, CloseEvent.purgeSearchCache],
          rfl, ?_, ?_, ?_⟩, rfl⟩
      · intro cache h e he
        simp [ReadThroughSegment.Close] at h
        subst h
        exact PLCache.mem_PurgeSegment he
      · intro cache h e he
        simp [ReadThroughSegment.Close] at h
        subst h
        exact PLCache.mem_PurgeSegment he
      · simp
      · simp
      · simp

theorem C2_close_purges_then_closes_witness :
    ((NewReadThroughSegment testSegment 7 ⟨true, true, true⟩).Close
        ⟨false, ⟨some testCache, some testCache⟩⟩).2.1.closed = true :=
  (C2_close_purges_then_closes (NewReadThroughSegment testSegment 7 ⟨true, true, true⟩)
    (some testCache) (some testCache)).1

/-- C3: when the key is not already cached and the underlying reader (or
the searcher, for `Search`) fails, the error is returned to the caller
unchanged and no cache is modified: the caches are populated only on a
successful underlying result. -/
theorem C3_errors_surfaced_never_cached (rd : UnderlyingReader) (u : Nat)
    (opts : ReadThroughSegmentOptions) (caches : ReadThroughSegmentCaches)
    (f t : String) (c : CompiledRegex) (q : Query) (searcher : Searcher)
    (e : Err) :
    ((∀ cache, caches.SegmentPostingsListCache = some cache →
        PLCache.GetTerm cache u f t = none) →
      rd.matchTerm f t = Except.error e →
      (newReadThroughSegmentReader rd u opts).MatchTerm caches f t
        = (Except.error e, caches)) ∧
    ((∀ cache, caches.SegmentPostingsListCache = some cache →
        PLCache.GetRegexp cache u f c.fstStr = none) →
      rd.matchRegexp f c = Except.error e →
      (newReadThroughSegmentReader rd u opts).MatchRegexp caches f c
        = (Except.error e, caches)) ∧
    ((∀ cache, caches.SegmentPostingsListCache = some cache →
        PLCache.GetField cache u f = none) →
      rd.matchField f = Except.error e →
      (newReadThroughSegmentReader rd u opts).MatchField caches f
        = (Except.error e, caches)) ∧
    ((∀ cache, caches.SearchPostingsListCache = some cache →
        PLCache.GetSearch cache u q.str = none) →
      searcher.searchResult = Except.error e →
      (newReadThroughSegmentReader rd u opts).Search caches q searcher
        = (Except.error e, caches)) := by
  obtain ⟨segc, searchc⟩ := caches
  refine ⟨?_, ?_, ?_, ?_⟩
  · intro hcold herr
    cases segc with
    | none =>
      simp [readThroughSegmentReader.MatchTerm, newReadThroughSegmentReader,
        herr]
    | some cache =>
      have hc := hcold cache rfl
      cases hb : opts.CacheTerms <;>
        simp [readThroughSegmentReader.MatchTerm, newReadThroughSegmentReader,
          herr, hb, hc]
  · intro hcold herr
    cases segc with
    | none =>
      simp [readThroughSegmentReader.MatchRegexp, newReadThroughSegmentReader,
        herr]
    | some cache =>
      have hc := hcold cache rfl
      cases hb : opts.CacheRegexp <;>
        simp [readThroughSegmentReader.MatchRegexp,
          newReadThroughSegmentReader, herr, hb, hc]
  · intro hcold herr
    cases segc with
    | none =>
      simp [readThroughSegmentReader.MatchField, newReadThroughSegmentReader,
        herr]
    | some cache =>
      have hc := hcold cache rfl
      cases hb : opts.CacheTerms <;>
        simp [readThroughSegmentReader.MatchField, newReadThroughSegmentReader,
          herr, hb, hc]
  · intro hcold herr
    cases searchc with
    | none =>
      simp [readThroughSegmentReader.Search, newReadThroughSegmentReader, herr]
    | some cache =>
      have hc := hcold cache rfl
      cases hb : opts.CacheSearches <;>
        simp [readThroughSegmentReader.Search, newReadThroughSegmentReader,
          herr, hb, hc]

theorem C3_errors_surfaced_never_cached_witness :
    errReader.matchTerm "color" "red" = Except.error "term boom" ∧
    (newReadThroughSegmentReader errReader 7 ⟨true, true, true⟩).MatchTerm
        ⟨some [], some []⟩ "color" "red"
      = (Except.error "term boom", ⟨some [], some []⟩) :=
  ⟨rfl,
    (C3_errors_surfaced_never_cached errReader 7 ⟨true, true, true⟩
        ⟨some [], some []⟩ "color" "red" ⟨"squa.*", "squa.*"⟩ ⟨0, "q"⟩
        ⟨Except.ok []⟩ "term boom").1
      (by
        intro cache h
        cases h
        rfl)
      rfl⟩

/-- C6: cache keys use canonical string forms.  After a `MatchRegexp`
fill with `c1`, a `MatchRegexp` with any `c2` whose FST serialisation
equals `c1`'s (regardless of the user-supplied pattern text) hits the
same cache slot and returns the cached postings without changing the
state; after a `Search` fill with query `q1`, a `Search` with any query
sharing `q1`'s canonical string, run with any searcher, hits the same
slot. -/
theorem C6_canonical_cache_keys (rd : UnderlyingReader) (u : Nat)
    (b1 b2 : Bool) (cache cacheS : PLCache) (sc segc : Option PLCache)
    (f : String) (c1 c2 : CompiledRegex) (pl plS : PostingsList)
    (q1 q2 : Query) (searcher1 searcher2 : Searcher)
    (hfst : c2.fstStr = c1.fstStr)
    (hcold : PLCache.GetRegexp cache u f c1.fstStr = none)
    (hok : rd.matchRegexp f c1 = Except.ok pl)
    (hq : q2.str = q1.str)
    (hcoldS : PLCache.GetSearch cacheS u q1.str = none)
    (hokS : searcher1.searchResult = Except.ok plS) :
    (newReadThroughSegmentReader rd u ⟨true, b1, b2⟩).MatchRegexp
        ((newReadThroughSegmentReader rd u ⟨true, b1, b2⟩).MatchRegexp
          ⟨some cache, sc⟩ f c1).2 f c2
      = (Except.ok pl,
          ((newReadThroughSegmentReader rd u ⟨true, b1, b2⟩).MatchRegexp
            ⟨some cache, sc⟩ f c1).2) ∧
    (newReadThroughSegmentReader rd u ⟨b1, b2, true⟩).Search
        ((newReadThroughSegmentReader rd u ⟨b1, b2, true⟩).Search
          ⟨segc, some cacheS⟩ q1 searcher1).2 q2 searcher2
      = (Except.ok plS,
          ((newReadThroughSegmentReader rd u ⟨b1, b2, true⟩).Search
            ⟨segc, some cacheS⟩ q1 searcher1).2) := by
  constructor
  · simp [readThroughSegmentReader.MatchRegexp, newReadThroughSegmentReader,
      hcold, hok, hfst, PLCache.GetRegexp_PutRegexp_self]
  · simp [readThroughSegmentReader.Search, newReadThroughSegmentReader,
      hcoldS, hokS, hq, PLCache.GetSearch_PutSearch_self]

theorem C6_canonical_cache_keys_witness :
    (⟨"squa.*", "squa.*"⟩ : CompiledRegex).fstStr
        = (⟨"^squa.*$", "squa.*"⟩ : CompiledRegex).fstStr ∧
    (newReadThroughSegmentReader testReader 7 ⟨true, true, true⟩).MatchRegexp
        ((newReadThroughSegmentReader testReader 7 ⟨true, true, true⟩).MatchRegexp
          ⟨some [], none⟩ "shape" ⟨"^squa.*$", "squa.*"⟩).2 "shape"
        ⟨"squa.*", "squa.*"⟩
      = (Except.ok [2, 3],
          ((newReadThroughSegmentReader testReader 7 ⟨true, true, true⟩).MatchRegexp
            ⟨some [], none⟩ "shape" ⟨"^squa.*$", "squa.*"⟩).2) :=
  ⟨rfl,
    (C6_canonical_cache_keys testReader 7 true true [] [] none none "shape"
        ⟨"^squa.*$", "squa.*"⟩ ⟨"squa.*", "squa.*"⟩ [2, 3] [4] ⟨0, "q"⟩
        ⟨1, "q"⟩ ⟨Except.ok [4]⟩ ⟨Except.error "other"⟩ rfl rfl rfl rfl rfl
        rfl).1⟩

theorem close_state_purged (r : ReadThroughSegment) (sp sr : Option PLCache) :
    (∀ cache,
      (r.Close ⟨false, ⟨sp, sr⟩⟩).2.1.caches.SegmentPostingsListCache
          = some cache →
      ∀ e ∈ cache, e.1.segment ≠ r.uuid) ∧
    (∀ cache,
      (r.Close ⟨false, ⟨sp, sr⟩⟩).2.1.caches.SearchPostingsListCache
          = some cache →
      ∀ e ∈ cache, e.1.segment ≠ r.uuid) := by
  cases sp <;> cases sr <;>
    refine ⟨?_, ?_⟩ <;>
      intro cache h <;>
        simp [ReadThroughSegment.Close] at h
  all_goals
    intro e he
  all_goals
    subst h
  all_goals
    exact PLCache.mem_PurgeSegment he

/-- C9: the closed flag is monotone and is set before the fallible
underlying close: when the underlying segment's close fails, the wrapper
has nevertheless transitioned to closed and purged the caches, every
subsequent `Reader` call fails with the SegmentClosed error and every
subsequent `Close` call fails with the AlreadyClosed error; `Close`
always leaves the flag set and `PutCachedSearchPattern` never changes
it. -/
theorem C9_closed_flag_monotone (r : ReadThroughSegment)
    (sp sr : Option PLCache) (e : Err) (st : ReadThroughSegmentState)
    (qs : String) (q : Query) (pl : PostingsList) :
    (r.segment.closeResult = Except.error e →
      (r.Close ⟨false, ⟨sp, sr⟩⟩).1 = Except.error e ∧
      (r.Close ⟨false, ⟨sp, sr⟩⟩).2.1.closed = true ∧
      (∀ cache,
        (r.Close ⟨false, ⟨sp, sr⟩⟩).2.1.caches.SegmentPostingsListCache
            = some cache →
        ∀ en ∈ cache, en.1.segment ≠ r.uuid) ∧
      (∀ cache,
        (r.Close ⟨false, ⟨sp, sr⟩⟩).2.1.caches.SearchPostingsListCache
            = some cache →
        ∀ en ∈ cache, en.1.segment ≠ r.uuid) ∧
      r.Reader (r.Close ⟨false, ⟨sp, sr⟩⟩).2.1
          = Except.error errCantGetReaderFromClosedSegment ∧
      (r.Close (r.Close ⟨false, ⟨sp, sr⟩⟩).2.1).1
          = Except.error errCantCloseClosedSegment) ∧
    (r.Close st).2.1.closed = true ∧
    (r.PutCachedSearchPattern st qs q pl).closed = st.closed := by
  refine ⟨?_, ?_, ?_⟩
  · intro herr
    refine ⟨?_, ?_, (close_state_purged r sp sr).1,
      (close_state_purged r sp sr).2, ?_, ?_⟩
    · cases sp <;> cases sr <;> simp [ReadThroughSegment.Close, herr]
    · cases sp <;> cases sr <;> rfl
    · cases sp <;> cases sr <;> rfl
    · cases sp <;> cases sr <;> rfl
  · obtain ⟨cl, ⟨csp, csr⟩⟩ := st
    cases cl <;> cases csp <;> cases csr <;> rfl
  · obtain ⟨cl, ⟨csp, csr⟩⟩ := st
    cases cl <;> cases csr <;> cases hb : r.opts.CacheSearches <;>
      simp [ReadThroughSegment.PutCachedSearchPattern, hb]

theorem C9_closed_flag_monotone_witness :
    failCloseSegment.closeResult = Except.error "close boom" ∧
    ((NewReadThroughSegment failCloseSegment 7 ⟨true, true, true⟩).Close
        ⟨false, ⟨some testCache, none⟩⟩).2.1.closed = true :=
  ⟨rfl,
    ((C9_closed_flag_monotone
        (NewReadThroughSegment failCloseSegment 7 ⟨true, true, true⟩)
        (some testCache) none "close boom" ⟨false, ⟨none, none⟩⟩ "q" ⟨0, "q"⟩
        []).1 rfl).2.1⟩
